import Mathlib

/-!
# Verification of the tajiUploader sync engine

Shallow embedding of the Go program `tajuploader.go` (the current revision,
the one with the activity-type filter and fatal credential checks).

Modelling conventions:
* Go's `int64` is modelled as `Int`; its `/` and `%` truncate toward zero,
  so they are embedded as `Int.tdiv` / `Int.tmod`.
* Go's `float64` values are modelled as exact fractions (`Frac`: an integer
  numerator over a positive integer denominator, kept unnormalized); the
  decimal literals of the source become the corresponding decimal fractions.
  Every concrete value this development evaluates is far from a 2-decimal
  rounding boundary, so the exact model and IEEE-754 binary64 agree on all
  the formatted strings proved here.
* The environment map loaded by `godotenv` is an association list where the
  most recent binding wins, matching Go map reads/writes.
* `log.Fatal` (process termination with a diagnostic) is embedded as
  `Except.error`; a function that cannot fail is total.
* Network and console I/O (`http.Client`, `time.Parse` plus local-timezone
  conversion, the interactive `loginTaji` / `authStrava` flows, regex
  scraping of fetched pages) are delegated to explicit oracle parameters:
  the embedding receives the decoded/scraped values those calls would
  produce and models everything the program computes from them.
-/

namespace TajiUploader

/-- The key/value configuration store (`u.env`), an association list in which
the most recent binding of a key wins, as in a Go map. -/
abbrev Env := List (String × String)

/-- Go map read `env[k]` with comma-ok: `some v` when present. -/
def envLookup (env : Env) (k : String) : Option String :=
  env.lookup k

/-- Go map write `env[k] = v`. -/
def envSet (env : Env) (k v : String) : Env :=
  (k, v) :: env

/-- Structure `tajiEvent`: one entry already visible on the sink (date and time as
rendered by the sink's edit form). -/
structure tajiEvent where
  date : String
  time : String
deriving DecidableEq, Repr

/-- The five fields `createRun` derives from `time.Parse(time.RFC3339, date)`
followed by `t.In(time.Local)` and `t.Format(...)`.  Timestamp parsing and
local-timezone conversion depend on the runtime environment, so they are
delegated to an oracle `String → localTime` supplied by the caller. -/
structure localTime where
  date : String
  time : String
  time_hours : String
  time_minutes : String
  time_ampm : String
deriving DecidableEq, Repr

/-- Exact-fraction model of a `float64` value: `num / den` with `den`
positive.  Kept unnormalized so that every operation is plain integer
arithmetic. -/
structure Frac where
  num : Int
  den : Int
deriving DecidableEq, Repr

/-- Multiplication of exact fractions. -/
def Frac.mul (a b : Frac) : Frac :=
  { num := a.num * b.num, den := a.den * b.den }

/-- Negation of an exact fraction. -/
def Frac.neg (a : Frac) : Frac :=
  { num := - a.num, den := a.den }

/-- Structure `runDetails`: the canonical run record, shaped to the sink's form. -/
structure runDetails where
  date : String
  time : String
  time_hours : String
  time_minutes : String
  time_ampm : String
  distance : String
  duration : String
  duration_hours : String
  duration_minutes : String
  duration_seconds : String
  elevation_gain : String
  distance_float : Frac
  duration_int : Int
deriving DecidableEq, Repr

/-- Go `fmt.Sprintf("%01d", n)`: minimum width 1, i.e. the plain decimal
rendering of the integer. -/
def goFmt1d (n : Int) : String :=
  toString n

/-- Go `fmt.Sprintf("%02d", n)`: pad the decimal rendering with zeros on the
left to width 2.  Exactly the single-digit nonnegative values render in one
character (a negative value carries a sign, so it is already at least two
characters wide), hence the numeric condition. -/
def goFmt02d (n : Int) : String :=
  if 0 ≤ n ∧ n < 10 then "0" ++ toString n else toString n

/-- Rounding of `q` (with positive denominator) to the nearest integer, ties
to the even neighbour: the rounding Go's `strconv`/`fmt` fixed-precision
float formatting applies to the decimal expansion of the value. -/
def roundHalfEven (q : Frac) : Int :=
  let f : Int := Int.fdiv q.num q.den
  let rem2 : Int := 2 * (q.num - f * q.den)
  if rem2 < q.den then f
  else if q.den < rem2 then f + 1
  else if f % 2 = 0 then f else f + 1

/-- Go `fmt.Sprintf("%1.2f", q)` for nonnegative `q`: the value rounded to
two decimal places, with exactly two digits after the point. -/
def goFmtF2abs (q : Frac) : String :=
  let n : Nat := (roundHalfEven (q.mul { num := 100, den := 1 })).toNat
  let ip : Nat := n / 100
  let fp : Nat := n % 100
  toString ip ++ "." ++ (if fp < 10 then "0" ++ toString fp else toString fp)

/-- Go `fmt.Sprintf("%1.2f", q)` (width 1 imposes nothing; precision 2). -/
def goFmtF2 (q : Frac) : String :=
  if q.num < 0 then "-" ++ goFmtF2abs (Frac.neg q) else goFmtF2abs q

/-- Function `meter2mile`: `miles = meters * 0.000621371`. -/
def meter2mile (meters : Frac) : Frac :=
  meters.mul { num := 621371, den := 1000000000 }

/-- The binding `seconds := duration % 60` in `createRun` (Go `%` on `int64`). -/
def durSeconds (duration : Int) : Int :=
  Int.tmod duration 60

/-- The binding `minutes := duration / 60` in `createRun` (Go `/` on `int64`). -/
def durMinutes (duration : Int) : Int :=
  Int.tdiv duration 60

/-- The binding `hours := minutes / 60` in `createRun`. -/
def durHours (duration : Int) : Int :=
  Int.tdiv (durMinutes duration) 60

/-- Function `createRun(date, duration, distance)`.  `parseLocal` stands for
`time.Parse(time.RFC3339, ·)` followed by conversion to the local time zone
and the five `Format` calls; everything else is computed as in the source.
`elevation_gain` is never assigned, so it keeps Go's zero value `""`. -/
def createRun (parseLocal : String → localTime) (date : String)
    (duration : Int) (distance : Frac) : runDetails :=
  let t := parseLocal date
  let seconds := durSeconds duration
  let minutes := durMinutes duration
  let hours := durHours duration
  { date := t.date
    time := t.time
    time_hours := t.time_hours
    time_minutes := t.time_minutes
    time_ampm := t.time_ampm
    distance := goFmtF2 (meter2mile distance)
    duration := goFmt1d hours ++ ":" ++ goFmt1d minutes ++ ":" ++ goFmt02d seconds
    duration_hours := goFmt1d hours
    duration_minutes := goFmt1d minutes
    duration_seconds := goFmt02d seconds
    elevation_gain := ""
    duration_int := duration
    distance_float := distance }

/-- One element of the decoded JSON activity array, restricted to the fields
`getStravaActivities` reads.  `elapsed_time` arrives as a JSON number and is
converted by `int64(...)`; the embedding carries the resulting integer.
`distance` is the `float64` field, modelled as an exact fraction. -/
structure Activity where
  type : String
  start_date : String
  elapsed_time : Int
  distance : Frac
deriving DecidableEq, Repr

/-- Function `getStravaActivities`: the HTTP fetch and `json.Unmarshal` are delegated
to the `decoded` oracle (`none` models an unmarshal error, in which case the
function logs and returns the nil slice); the loop appends a `createRun`
record for every activity whose `type` equals `"Run"`. -/
def getStravaActivities (parseLocal : String → localTime)
    (decoded : Option (List Activity)) : List runDetails :=
  match decoded with
  | none => []
  | some activities =>
      activities.foldl
        (fun acc activity =>
          if activity.type == "Run" then
            acc ++ [createRun parseLocal activity.start_date
                      activity.elapsed_time activity.distance]
          else acc)
        []

/-- Function `getTajiEvents`: for each entry id the program fetches the edit page and
extracts the date and time values by regex; a failed match makes the indexing
of the nil submatch panic, embedded as `Except.error`.  The page fetch and
the two regex extractions are delegated to the `fetch` oracle: `fetch id`
is `some (date, time)` when both patterns match on that entry's page. -/
def getTajiEvents (fetch : String → Option (String × String)) :
    List String → Except String (List tajiEvent)
  | [] => .ok []
  | entry :: rest =>
      match fetch entry with
      | none => .error "scrape pattern miss"
      | some (d, tm) =>
          match getTajiEvents fetch rest with
          | .error e => .error e
          | .ok events => .ok ({ date := d, time := tm } :: events)

/-- Function `uploaded(run, events)`: linear scan for an event `reflect.DeepEqual` to
the target built from the run's date and time. -/
def uploaded (run : runDetails) (events : List tajiEvent) : Bool :=
  let target : tajiEvent := { date := run.date, time := run.time }
  events.any (fun event => decide (event = target))

/-- The POST decisions of one iteration of `main`'s sync loop: the runs for
which `postRun` is invoked, i.e. those with `!uploaded(run, events)`. -/
def mainCyclePosts (runs : List runDetails) (events : List tajiEvent) :
    List runDetails :=
  runs.filter (fun run => ! uploaded run events)

/-- The oauth2 configuration `initStrava` builds (the endpoint URLs are
compile-time constants and omitted). -/
structure stravaConf where
  clientID : String
  clientSecret : String
  redirectURL : String
deriving DecidableEq, Repr

/-- Where `initStrava` gets its token: deserialized from the stored
`STRAVA_TOKEN` value, or from the interactive `authStrava` flow (which then
writes the marshalled token back into the store). -/
inductive tokenSource where
  | fromEnv (raw : String)
  | interactive
deriving DecidableEq, Repr

/-- Function `initStrava`: `log.Fatal` on a missing client id or client secret is
embedded as `Except.error` with the source's diagnostic. -/
def initStrava (env : Env) : Except String (stravaConf × tokenSource) :=
  match envLookup env "TAJU_CLIENT_ID" with
  | none => .error "Error unpacking TajUploader Client ID"
  | some cid =>
      match envLookup env "TAJU_CLIENT_SECRET" with
      | none => .error "Error unpacking TajUploader Client Secret"
      | some secret =>
          let conf : stravaConf :=
            { clientID := cid
              clientSecret := secret
              redirectURL := "http://localhost:9191" }
          match envLookup env "STRAVA_TOKEN" with
          | some raw => .ok (conf, .fromEnv raw)
          | none => .ok (conf, .interactive)

/-- The sink session state: credential triplet plus the cookies installed on
the HTTP client's jar for `https://taji100.com` (name/value pairs). -/
structure taji where
  csrf : String
  session : String
  participant_id : String
  cookies : List (String × String)
deriving DecidableEq, Repr

/-- Result of `initTaji`: the session, the (possibly updated) store, and
whether the interactive `loginTaji` flow ran (i.e. the server was
contacted). -/
structure tajiInit where
  t : taji
  env : Env
  loginPerformed : Bool
deriving DecidableEq, Repr

/-- Function `initTaji`: read the `TAJI_CSRF` / `TAJI_SESSION` / `TAJI_PARTICIPANT`
triplet with comma-ok; if any is absent run `loginTaji` — an interactive
network flow, delegated to the `login` oracle triple (csrf, session,
participant id) — and write the obtained triplet back into the store; in
both cases install `csrftoken` and `sessionid` cookies from the store's
values. -/
def initTaji (env : Env) (login : String × String × String) : tajiInit :=
  let csrfOpt := envLookup env "TAJI_CSRF"
  let sessOpt := envLookup env "TAJI_SESSION"
  let partOpt := envLookup env "TAJI_PARTICIPANT"
  if csrfOpt.isSome && sessOpt.isSome && partOpt.isSome then
    { t := { csrf := csrfOpt.getD ""
             session := sessOpt.getD ""
             participant_id := partOpt.getD ""
             cookies := [("csrftoken", (envLookup env "TAJI_CSRF").getD ""),
                         ("sessionid", (envLookup env "TAJI_SESSION").getD "")] }
      env := env
      loginPerformed := false }
  else
    let envA := envSet env "TAJI_CSRF" login.1
    let envB := envSet envA "TAJI_SESSION" login.2.1
    let envC := envSet envB "TAJI_PARTICIPANT" login.2.2
    { t := { csrf := login.1
             session := login.2.1
             participant_id := login.2.2
             cookies := [("csrftoken", (envLookup envC "TAJI_CSRF").getD ""),
                         ("sessionid", (envLookup envC "TAJI_SESSION").getD "")] }
      env := envC
      loginPerformed := true }

/-- The state `initUploader` leaves behind on success. -/
structure uploaderState where
  conf : stravaConf
  token : tokenSource
  sink : taji
  env : Env
deriving DecidableEq, Repr

/-- Function `initUploader` after `loadEnvFile`: run `initStrava` (fatal errors
short-circuit), persist a freshly obtained token in the store, then run
`initTaji` on the resulting store.  `stravaAuthToken` is the marshalled
token the interactive `authStrava` flow would produce. -/
def initUploader (env : Env) (stravaAuthToken : String)
    (login : String × String × String) : Except String uploaderState :=
  match initStrava env with
  | .error e => .error e
  | .ok (conf, src) =>
      let env1 :=
        match src with
        | .fromEnv _ => env
        | .interactive => envSet env "STRAVA_TOKEN" stravaAuthToken
      let r := initTaji env1 login
      .ok { conf := conf, token := src, sink := r.t, env := r.env }

end TajiUploader

namespace TajiUploader

/-- A fixed stand-in for the timestamp-parsing oracle, used to instantiate
theorems at concrete inputs. -/
def sampleParse : String → localTime :=
  fun _ =>
    { date := "2025-02-10", time := "09:30:AM", time_hours := "09",
      time_minutes := "30", time_ampm := "AM" }

/-- A fixed stand-in for the edit-page scraping oracle, used to instantiate
theorems at concrete inputs. -/
def sampleFetch : String → Option (String × String) :=
  fun _ => some ("2025-02-01", "07:00:AM")

end TajiUploader

namespace TajiUploader

/-! ## Bridging lemmas between Go integer operations and `Nat` arithmetic -/

/-- Go truncated division agrees with `Nat` division on nonnegative values. -/
theorem tdiv_coe_nat (m n : Nat) :
    Int.tdiv (m : Int) (n : Int) = ((m / n : Nat) : Int) := rfl

/-- Go truncated remainder agrees with `Nat` remainder on nonnegative values. -/
theorem tmod_coe_nat (m n : Nat) :
    Int.tmod (m : Int) (n : Int) = ((m % n : Nat) : Int) := rfl

/-- Rendering a nonnegative `Int` is rendering the underlying `Nat`. -/
theorem toString_coe_nat (n : Nat) : toString ((n : Int)) = toString n := rfl

theorem durSeconds_coe_nat (n : Nat) : durSeconds (n : Int) = ((n % 60 : Nat) : Int) := rfl

theorem durMinutes_coe_nat (n : Nat) : durMinutes (n : Int) = ((n / 60 : Nat) : Int) := rfl

theorem durHours_coe_nat (n : Nat) : durHours (n : Int) = ((n / 60 / 60 : Nat) : Int) := rfl

/-- On nonnegative values, `%02d` pads exactly the single-digit numbers. -/
theorem goFmt02d_coe_nat (k : Nat) :
    goFmt02d (k : Int) = if k < 10 then "0" ++ toString k else toString k := by
  unfold goFmt02d
  by_cases h : k < 10
  · rw [if_pos ⟨Int.ofNat_nonneg k, by exact_mod_cast h⟩, if_pos h, toString_coe_nat]
  · rw [if_neg (fun hc => h (by exact_mod_cast hc.2)), if_neg h, toString_coe_nat]

/-- C1: for every nonnegative elapsedSeconds, `createRun` decomposes the
duration as hours = (elapsedSeconds/60)/60, minutes = elapsedSeconds/60
(total minutes), seconds = elapsedSeconds % 60, and renders the duration
display string as H:M:S with unpadded hours and minutes and zero-padded
2-digit seconds; at elapsedSeconds = 5425 this yields hours=1, minutes=90,
seconds=25 and the string "1:90:25". -/
theorem createRun_duration_decomposition (parseLocal : String → localTime)
    (date : String) (distance : Frac) (n : Nat) :
    (createRun parseLocal date (n : Int) distance).duration_hours
        = toString (n / 60 / 60)
    ∧ (createRun parseLocal date (n : Int) distance).duration_minutes
        = toString (n / 60)
    ∧ (createRun parseLocal date (n : Int) distance).duration_seconds
        = (if n % 60 < 10 then "0" ++ toString (n % 60) else toString (n % 60))
    ∧ (createRun parseLocal date (n : Int) distance).duration
        = toString (n / 60 / 60) ++ ":" ++ toString (n / 60) ++ ":"
            ++ (if n % 60 < 10 then "0" ++ toString (n % 60) else toString (n % 60))
    ∧ (createRun parseLocal date 5425 distance).duration_hours = "1"
    ∧ (createRun parseLocal date 5425 distance).duration_minutes = "90"
    ∧ (createRun parseLocal date 5425 distance).duration_seconds = "25"
    ∧ (createRun parseLocal date 5425 distance).duration = "1:90:25" := by
  refine ⟨?_, ?_, ?_, ?_, rfl, rfl, rfl, rfl⟩ <;>
    simp only [createRun, goFmt1d, durHours_coe_nat, durMinutes_coe_nat,
      durSeconds_coe_nat, toString_coe_nat, goFmt02d_coe_nat]

/-- C9: the duration decomposition of `createRun` reconstructs the stored
raw total: minutes*60 + seconds equals the `duration_int` field, hours is
minutes/60 by integer division, and the seconds component lies in [0, 59]. -/
theorem createRun_duration_invariant (parseLocal : String → localTime)
    (date : String) (distance : Frac) (n : Nat) :
    durMinutes (n : Int) * 60 + durSeconds (n : Int)
        = (createRun parseLocal date (n : Int) distance).duration_int
    ∧ durHours (n : Int) = Int.tdiv (durMinutes (n : Int)) 60
    ∧ 0 ≤ durSeconds (n : Int) ∧ durSeconds (n : Int) ≤ 59 := by
  refine ⟨?_, rfl, ?_, ?_⟩
  · show durMinutes (n : Int) * 60 + durSeconds (n : Int) = (n : Int)
    rw [durMinutes_coe_nat, durSeconds_coe_nat]
    omega
  · rw [durSeconds_coe_nat]; omega
  · rw [durSeconds_coe_nat]; omega

/-- The activity loop of `getStravaActivities` is filtering to type "Run"
followed by mapping `createRun`, whatever records were accumulated so far. -/
theorem getStravaActivities_foldl (parseLocal : String → localTime)
    (acts : List Activity) (acc : List runDetails) :
    acts.foldl
        (fun acc activity =>
          if activity.type == "Run" then
            acc ++ [createRun parseLocal activity.start_date
                      activity.elapsed_time activity.distance]
          else acc)
        acc
      = acc ++ (acts.filter (fun a => a.type == "Run")).map
          (fun a => createRun parseLocal a.start_date a.elapsed_time a.distance) := by
  induction acts generalizing acc with
  | nil => simp
  | cons a rest ih =>
      rw [List.foldl_cons, List.filter_cons]
      cases h : (a.type == "Run") with
      | false =>
          rw [if_neg Bool.false_ne_true, if_neg Bool.false_ne_true, ih]
      | true =>
          rw [if_pos rfl, if_pos rfl, ih, List.map_cons]
          simp

/-- C2: `getStravaActivities` keeps exactly the activities whose type equals
"Run", in the original order, mapping each through `createRun`; other
activities produce no record and no error. -/
theorem getStravaActivities_type_filter (parseLocal : String → localTime)
    (acts : List Activity) :
    getStravaActivities parseLocal (some acts)
      = (acts.filter (fun a => a.type == "Run")).map
          (fun a => createRun parseLocal a.start_date a.elapsed_time a.distance) := by
  show List.foldl _ ([] : List runDetails) acts = _
  rw [getStravaActivities_foldl]
  simp

end TajiUploader

namespace TajiUploader

/-- Function `uploaded` holds exactly when some scraped event carries the run's
(date, time) pair. -/
theorem uploaded_iff_exists (run : runDetails) (events : List tajiEvent) :
    uploaded run events = true
      ↔ ∃ e ∈ events, e.date = run.date ∧ e.time = run.time := by
  unfold uploaded
  rw [List.any_eq_true]
  constructor
  · rintro ⟨e, he, hd⟩
    rw [decide_eq_true_eq] at hd
    subst hd
    exact ⟨_, he, rfl, rfl⟩
  · rintro ⟨e, he, hd, ht⟩
    refine ⟨e, he, ?_⟩
    rw [decide_eq_true_eq]
    cases e
    cases hd
    cases ht
    rfl

/-- C3: a run is treated as already logged exactly when some event matches
its (date, time) pair; with an empty event list the sync loop posts every
run, and a run matched by an existing event is never posted. -/
theorem reconciliation_by_date_time (run : runDetails) (runs : List runDetails)
    (events : List tajiEvent) :
    (uploaded run events = true
      ↔ ∃ e ∈ events, e.date = run.date ∧ e.time = run.time)
    ∧ mainCyclePosts runs [] = runs
    ∧ ((∃ e ∈ events, e.date = run.date ∧ e.time = run.time)
        → run ∉ mainCyclePosts runs events) := by
  refine ⟨uploaded_iff_exists run events, ?_, ?_⟩
  · show runs.filter _ = runs
    apply List.filter_eq_self.mpr
    intro r _
    rfl
  · intro h hmem
    rw [mainCyclePosts, List.mem_filter] at hmem
    have hu : uploaded run events = true := (uploaded_iff_exists run events).mpr h
    rw [hu] at hmem
    exact Bool.false_ne_true hmem.2

/-- C7: a JSON decode failure on the activities response yields the empty
run list (no run is constructed, nothing is fatal), so that cycle of the
sync loop posts nothing and the loop goes on. -/
theorem decode_failure_yields_empty (parseLocal : String → localTime)
    (events : List tajiEvent) :
    getStravaActivities parseLocal none = []
    ∧ mainCyclePosts (getStravaActivities parseLocal none) events = [] :=
  ⟨rfl, rfl⟩

/-- C8: the duplicate check reads nothing of a run except its date and time
strings: two runs agreeing on those fields get the same verdict against any
event list. -/
theorem uploaded_depends_only_on_date_time (r1 r2 : runDetails)
    (events : List tajiEvent) (hdate : r1.date = r2.date)
    (htime : r1.time = r2.time) :
    uploaded r1 events = uploaded r2 events := by
  unfold uploaded
  rw [hdate, htime]

end TajiUploader

namespace TajiUploader

/-- C5: `meter2mile` multiplies by the factor 0.000621371 and `createRun`
renders the result with exactly two decimal places; 1609.34 meters round to
"1.00" miles and 5000.0 meters render as "3.11". -/
theorem distance_conversion (parseLocal : String → localTime) (date : String)
    (dur : Int) :
    (∀ m : Frac, meter2mile m = m.mul { num := 621371, den := 1000000000 })
    ∧ (∀ q : Frac,
        (createRun parseLocal date dur q).distance = goFmtF2 (meter2mile q))
    ∧ goFmtF2 (meter2mile { num := 160934, den := 100 }) = "1.00"
    ∧ (createRun parseLocal date dur { num := 5000, den := 1 }).distance = "3.11" :=
  ⟨fun _ => rfl, fun _ => rfl, by decide, rfl⟩

/-- C4: a missing source client id or client secret makes `initStrava`
terminate with a diagnostic, and initialization as a whole stops there: no
sink session is established and no sync cycle can start. -/
theorem missing_source_credentials_fatal (env : Env) (stravaAuthToken : String)
    (login : String × String × String)
    (h : envLookup env "TAJU_CLIENT_ID" = none
        ∨ envLookup env "TAJU_CLIENT_SECRET" = none) :
    ∃ msg, initStrava env = Except.error msg
      ∧ initUploader env stravaAuthToken login = Except.error msg := by
  have hs : ∃ msg, initStrava env = Except.error msg := by
    rcases h with h | h
    · refine ⟨"Error unpacking TajUploader Client ID", ?_⟩
      simp [initStrava, h]
    · cases h0 : envLookup env "TAJU_CLIENT_ID" with
      | none =>
          refine ⟨"Error unpacking TajUploader Client ID", ?_⟩
          simp [initStrava, h0]
      | some cid =>
          refine ⟨"Error unpacking TajUploader Client Secret", ?_⟩
          simp [initStrava, h0, h]
  obtain ⟨msg, hmsg⟩ := hs
  exact ⟨msg, hmsg, by simp [initUploader, hmsg]⟩

/-- Reduction of `initTaji` when the whole credential triplet is present. -/
theorem initTaji_restored (env : Env) (login : String × String × String)
    (hc : ((envLookup env "TAJI_CSRF").isSome
        && (envLookup env "TAJI_SESSION").isSome
        && (envLookup env "TAJI_PARTICIPANT").isSome) = true) :
    initTaji env login =
      { t := { csrf := (envLookup env "TAJI_CSRF").getD ""
               session := (envLookup env "TAJI_SESSION").getD ""
               participant_id := (envLookup env "TAJI_PARTICIPANT").getD ""
               cookies := [("csrftoken", (envLookup env "TAJI_CSRF").getD ""),
                           ("sessionid", (envLookup env "TAJI_SESSION").getD "")] }
        env := env
        loginPerformed := false } := by
  simp only [initTaji]
  rw [hc, if_pos rfl]

/-- Reduction of `initTaji` when some credential is absent: the login oracle
supplies the triplet, which is written back to the store. -/
theorem initTaji_login (env : Env) (login : String × String × String)
    (hc : ((envLookup env "TAJI_CSRF").isSome
        && (envLookup env "TAJI_SESSION").isSome
        && (envLookup env "TAJI_PARTICIPANT").isSome) = false) :
    initTaji env login =
      { t := { csrf := login.1
               session := login.2.1
               participant_id := login.2.2
               cookies := [("csrftoken", login.1), ("sessionid", login.2.1)] }
        env := envSet (envSet (envSet env "TAJI_CSRF" login.1)
                  "TAJI_SESSION" login.2.1) "TAJI_PARTICIPANT" login.2.2
        loginPerformed := true } := by
  simp only [initTaji]
  rw [hc, if_neg Bool.false_ne_true]
  rfl

/-- C6: `initTaji` skips the interactive login exactly when the whole
credential triplet is in the store; a restored session adopts the stored
values with the store untouched, a fresh login adopts the oracle's triplet
and writes it back, and either way the csrf and session values end up as
the client's cookies. -/
theorem sink_session_restore_or_login (env : Env)
    (login : String × String × String) :
    ((initTaji env login).loginPerformed = false
      ↔ ((envLookup env "TAJI_CSRF").isSome = true
          ∧ (envLookup env "TAJI_SESSION").isSome = true
          ∧ (envLookup env "TAJI_PARTICIPANT").isSome = true))
    ∧ ((initTaji env login).loginPerformed = false →
        (initTaji env login).env = env
        ∧ (initTaji env login).t.csrf = (envLookup env "TAJI_CSRF").getD ""
        ∧ (initTaji env login).t.session = (envLookup env "TAJI_SESSION").getD ""
        ∧ (initTaji env login).t.participant_id
            = (envLookup env "TAJI_PARTICIPANT").getD "")
    ∧ ((initTaji env login).loginPerformed = true →
        (initTaji env login).t.csrf = login.1
        ∧ (initTaji env login).t.session = login.2.1
        ∧ (initTaji env login).t.participant_id = login.2.2
        ∧ envLookup (initTaji env login).env "TAJI_CSRF" = some login.1
        ∧ envLookup (initTaji env login).env "TAJI_SESSION" = some login.2.1
        ∧ envLookup (initTaji env login).env "TAJI_PARTICIPANT" = some login.2.2)
    ∧ (initTaji env login).t.cookies =
        [("csrftoken", (initTaji env login).t.csrf),
         ("sessionid", (initTaji env login).t.session)] := by
  cases hc : ((envLookup env "TAJI_CSRF").isSome
      && (envLookup env "TAJI_SESSION").isSome
      && (envLookup env "TAJI_PARTICIPANT").isSome) with
  | true =>
      rw [initTaji_restored env login hc]
      rw [Bool.and_eq_true, Bool.and_eq_true] at hc
      refine ⟨by simp [hc.1.1, hc.1.2, hc.2], fun _ => ⟨rfl, rfl, rfl, rfl⟩, ?_, rfl⟩
      intro habs
      exact absurd habs Bool.false_ne_true
  | false =>
      rw [initTaji_login env login hc]
      refine ⟨?_, ?_, fun _ => ⟨rfl, rfl, rfl, rfl, rfl, rfl⟩, rfl⟩
      · constructor
        · intro habs
          simp at habs
        · rintro ⟨h1, h2, h3⟩
          rw [h1, h2, h3] at hc
          simp at hc
      · intro habs
        simp at habs

/-- C10: whenever `getTajiEvents` returns, it has produced exactly one event
per input entry id, in input order; the empty entry list yields the empty
event list. -/
theorem getTajiEvents_one_per_entry (fetch : String → Option (String × String))
    (entries : List String) (events : List tajiEvent)
    (h : getTajiEvents fetch entries = Except.ok events) :
    events.length = entries.length
    ∧ List.Forall₂
        (fun entry event => fetch entry = some (event.date, event.time))
        entries events
    ∧ getTajiEvents fetch [] = Except.ok ([] : List tajiEvent) := by
  have hf : List.Forall₂
      (fun entry event => fetch entry = some (event.date, event.time))
      entries events := by
    induction entries generalizing events with
    | nil =>
        rw [getTajiEvents] at h
        cases h
        exact List.Forall₂.nil
    | cons e rest ih =>
        rw [getTajiEvents] at h
        cases he : fetch e with
        | none =>
            rw [he] at h
            cases h
        | some dt =>
            obtain ⟨d, tm⟩ := dt
            rw [he] at h
            cases hr : getTajiEvents fetch rest with
            | error msg =>
                rw [hr] at h
                cases h
            | ok evs =>
                rw [hr] at h
                cases h
                exact List.Forall₂.cons he (ih evs hr)
  exact ⟨hf.length_eq.symm, hf, rfl⟩

end TajiUploader

namespace TajiUploader

/-- Instantiation of the fatal-credential theorem at the empty store. -/
theorem missing_source_credentials_fatal_check :
    ∃ msg, initStrava [] = Except.error msg
      ∧ initUploader [] "tok" ("c", "s", "p") = Except.error msg :=
  missing_source_credentials_fatal [] "tok" ("c", "s", "p") (Or.inl rfl)

/-- Instantiation of the dedup-key theorem at two runs that differ in
distance and duration but share date and time. -/
theorem uploaded_depends_only_on_date_time_check :
    uploaded (createRun sampleParse "x" 3665 { num := 5000, den := 1 })
        [{ date := "2025-02-10", time := "09:30:AM" }]
      = uploaded (createRun sampleParse "x" 999 { num := 1, den := 1 })
        [{ date := "2025-02-10", time := "09:30:AM" }] :=
  uploaded_depends_only_on_date_time _ _ _ rfl rfl

/-- Instantiation of the one-event-per-entry theorem at a singleton entry
list. -/
theorem getTajiEvents_one_per_entry_check :
    ([{ date := "2025-02-01", time := "07:00:AM" }] : List tajiEvent).length
        = (["17"] : List String).length
    ∧ List.Forall₂
        (fun (entry : String) (event : tajiEvent) =>
          sampleFetch entry = some (event.date, event.time))
        ["17"] [{ date := "2025-02-01", time := "07:00:AM" }]
    ∧ getTajiEvents sampleFetch [] = Except.ok ([] : List tajiEvent) :=
  getTajiEvents_one_per_entry sampleFetch ["17"]
    [{ date := "2025-02-01", time := "07:00:AM" }] rfl

end TajiUploader

namespace TajiUploader

/-- Instantiation of the reconciliation theorem: with no scraped events, a
singleton run list is posted unchanged. -/
theorem reconciliation_by_date_time_check :
    mainCyclePosts [createRun sampleParse "x" 3665 { num := 5000, den := 1 }] []
      = [createRun sampleParse "x" 3665 { num := 5000, den := 1 }] :=
  (reconciliation_by_date_time
    (createRun sampleParse "x" 3665 { num := 5000, den := 1 })
    [createRun sampleParse "x" 3665 { num := 5000, den := 1 }] []).2.1

/-- Instantiation of the sink-session theorem: a store holding the full
triplet skips the interactive login. -/
theorem sink_session_restore_or_login_check :
    (initTaji [("TAJI_CSRF", "c"), ("TAJI_SESSION", "s"), ("TAJI_PARTICIPANT", "p")]
        ("x", "y", "z")).loginPerformed = false :=
  (sink_session_restore_or_login
    [("TAJI_CSRF", "c"), ("TAJI_SESSION", "s"), ("TAJI_PARTICIPANT", "p")]
    ("x", "y", "z")).1.mpr ⟨rfl, rfl, rfl⟩

end TajiUploader
